import Mathlib

/-!
Verification of the prerequisite-checking module (`lib/checkPrereqs.js`).

The module consists of six checker functions. Four of them ("fatal"
checkers) print failure messages and terminate the host process with exit
code 1 when a prerequisite is unmet; two of them return a value
(a boolean, resp. a promise outcome) instead.

The embedding makes the environment explicit (the synchronous process
launcher `spawnSync`, the filesystem reads, the user's home directory, and
the three string-formatting collaborators from the color-scheme module) and
records the observable actions of a checker (child-process launches,
console prints, process exits) as a trace, together with how control leaves
the function (normal return, process termination, or an uncaught
exception).  JavaScript's short-circuiting `||` over an operand that may
dereference `null` is modelled with an `Option Bool`.
-/

namespace CheckPrereqs

/-- Result of a `spawnSync` call: `status` is the exit status (`none` when
the child failed to launch or was killed by a signal), `stdout`/`stderr`
are the captured streams (`none` when the launch failed). -/
structure SpawnResult where
  status : Option Int
  stdout : Option String
  stderr : Option String
deriving DecidableEq

/-- The ambient environment of the module: the process launcher, the
synchronous whole-file read (`none` models a thrown error), the
directory listing (`none` models the error callback), the user's home
directory, and the three pure string-formatting collaborators
(`failure`, `warn`, `varFmt`) imported from the color-scheme module. -/
structure Env where
  spawn : String → List String → SpawnResult
  readFile : String → Option String
  readdir : String → Option (List String)
  homedir : String
  failure : String → String
  warn : String → String
  varFmt : String → String

/-- `charsStartWith s p` : the character list `s` starts with `p`. -/
def charsStartWith : List Char → List Char → Bool
  | _, [] => true
  | [], _ :: _ => false
  | c :: cs, p :: ps => c == p && charsStartWith cs ps

/-- `charsContain p s` : the character list `s` has `p` as a contiguous
sub-list (JavaScript `String.prototype.includes` on the char level). -/
def charsContain (p : List Char) : List Char → Bool
  | [] => p.isEmpty
  | c :: cs => charsStartWith (c :: cs) p || charsContain p cs

/-- JavaScript `s.includes(pat)` : `pat` occurs as a substring of `s`. -/
def strIncludes (s pat : String) : Bool :=
  charsContain pat.data s.data

/-- An observable action of a checker: launching a child process,
printing a line to the console, or exiting the host process. -/
inductive Act where
  | spawned (cmd : String) (args : List String)
  | printed (line : String)
  | exited (code : Nat)
deriving DecidableEq

/-- How control leaves a checker: a normal return to the caller, process
termination (control never returns), or an uncaught exception. -/
inductive Ret where
  | normal
  | terminated
  | threw
deriving DecidableEq

/-- JavaScript short-circuiting `||` whose right operand may throw
(`none` on the right models a thrown `TypeError`, e.g. calling
`.toString()` on `null`): the right operand is only consulted when the
left one is `false`. -/
def jsOr (b : Bool) (rest : Option Bool) : Option Bool :=
  if b then some true else rest

/-- The consolidated failure message of `checkInstalled`; a JavaScript
array interpolates into a string as its comma-joined elements. -/
def installedMsg (env : Env) (missing : List String) : String :=
  env.failure ("Required pre-requisites not installed: " ++
    String.intercalate "," missing ++ ". Exiting...")

/-- `checkInstalled(commandsToCheck)`: return at once on an empty array;
otherwise probe every command with the single argument `--version`,
collect the ones whose probe status differs from `0` (JS `!==`, so a
`null` status of a failed launch also counts) in order, and if any were
collected print one consolidated failure message and exit with code 1. -/
def checkInstalled (env : Env) (commandsToCheck : List String) : List Act × Ret :=
  if commandsToCheck.length = 0 then
    ([], Ret.normal)
  else
    let probes := commandsToCheck.map (fun c => Act.spawned c ["--version"])
    let missingPrereqs :=
      commandsToCheck.filter (fun c => (env.spawn c ["--version"]).status != some 0)
    if missingPrereqs.length ≠ 0 then
      (probes ++ [Act.printed (installedMsg env missingPrereqs), Act.exited 1],
       Ret.terminated)
    else
      (probes, Ret.normal)

/-- Argument list of the gcloud project query. -/
def gcloudArgs : List String := ["config", "get-value", "project"]

/-- The spawn result the gcloud checker inspects. -/
def gcloudRes (env : Env) : SpawnResult := env.spawn "gcloud" gcloudArgs

/-- The three lines printed by the failing branch of `checkGcloudProject`:
the failure message and the two remediation hints. -/
def gcloudFailLines (env : Env) : List Act :=
  [Act.printed (env.failure "The gcloud command does not appear to be initialized fully: no project is configured. Exiting..."),
   Act.printed (env.warn "To fully initialize gcloud: gcloud init"),
   Act.printed (env.warn "To set a project: gcloud config set project [NAME]")]

/-- `checkGcloudProject()`: spawn `gcloud config get-value project`; if the
status differs from `0` (JS `!==`) or the captured stderr contains
`(unset)`, print the failure message and two hints and exit 1; the stderr
dereference happens only when the status equals `0` (short circuit), and
dereferencing a `null` stderr would throw. -/
def checkGcloudProject (env : Env) : List Act × Ret :=
  let r := env.spawn "gcloud" gcloudArgs
  match jsOr (r.status != some 0) (r.stderr.map (fun s => strIncludes s "(unset)")) with
  | none => ([Act.spawned "gcloud" gcloudArgs], Ret.threw)
  | some true =>
      (Act.spawned "gcloud" gcloudArgs :: gcloudFailLines env ++ [Act.exited 1],
       Ret.terminated)
  | some false => ([Act.spawned "gcloud" gcloudArgs], Ret.normal)

/-- The single failure message of `checkGitLocalAuth`, printed both when
the cookie file cannot be read and when it lacks the marker. -/
def gitAuthMsg : String :=
  "Authentication to Cloud Source Repositories through git is not configured. Please configure it as defined in: https://cloud.google.com/source-repositories/docs/authentication#manually-generated-credentials"

/-- `checkGitLocalAuth()`: read `<homedir>/.gitcookies`; on a read error,
or when the content lacks the substring `source.developers.google.com`,
print the one generic failure message and exit 1; otherwise return
silently. -/
def checkGitLocalAuth (env : Env) : List Act × Ret :=
  match env.readFile (env.homedir ++ "/.gitcookies") with
  | none =>
      ([Act.printed (env.failure gitAuthMsg), Act.exited 1], Ret.terminated)
  | some gitCookies =>
      if !(strIncludes gitCookies "source.developers.google.com") then
        ([Act.printed (env.failure gitAuthMsg), Act.exited 1], Ret.terminated)
      else
        ([], Ret.normal)

/-- Argument list of the git configuration listing. -/
def gitConfigArgs : List String := ["config", "--list"]

/-- The spawn result the git-config checker inspects. -/
def gitConfigRes (env : Env) : SpawnResult := env.spawn "git" gitConfigArgs

/-- The four lines printed by the failing branch of `checkGitConfig`. -/
def gitConfigFailLines (env : Env) : List Act :=
  [Act.printed (env.failure "The git command does not appear to be initialized fully with a configured email and name. Exiting..."),
   Act.printed (env.warn "To fully initialize git, configure name and email with:"),
   Act.printed (env.warn ("\t" ++ env.varFmt "git config --global user.email \"you@example.com\"")),
   Act.printed (env.warn ("\t" ++ env.varFmt "git config --global user.name \"Your Name\""))]

/-- `checkGitConfig()`: spawn `git config --list`; if the status differs
from `0` (JS `!==`) or the captured stdout lacks the substring `email` or
lacks the substring `name`, print the failure message and hints and exit
1; the stdout dereference happens only when the status equals `0`. -/
def checkGitConfig (env : Env) : List Act × Ret :=
  let r := env.spawn "git" gitConfigArgs
  match jsOr (r.status != some 0)
      (r.stdout.map (fun s => !(strIncludes s "email") || !(strIncludes s "name"))) with
  | none => ([Act.spawned "git" gitConfigArgs], Ret.threw)
  | some true =>
      (Act.spawned "git" gitConfigArgs :: gitConfigFailLines env ++ [Act.exited 1],
       Ret.terminated)
  | some false => ([Act.spawned "git" gitConfigArgs], Ret.normal)

/-- `checkFileExists(file)`: try to read the file, swallowing any error;
return whether the read left a non-null result. -/
def checkFileExists (env : Env) (file : String) : Bool :=
  match env.readFile file with
  | none => false
  | some _ => true

/-- Outcome of the promise returned by `checkLocalDir`: the promise
resolves or rejects, in both cases with no payload. -/
inductive PromiseOutcome where
  | resolved
  | rejected
deriving DecidableEq

/-- `checkLocalDir(dirName)`: list the directory; reject on a listing
error, resolve when the listing has zero entries, reject otherwise. -/
def checkLocalDir (env : Env) (dirName : String) : PromiseOutcome :=
  match env.readdir dirName with
  | none => PromiseOutcome.rejected
  | some files =>
      if files.length = 0 then PromiseOutcome.resolved else PromiseOutcome.rejected

/-- A trace ends in `exit 1` and contains no other exit: process
termination with code 1 is the last observable action. -/
def exitLastOnly (tr : List Act) : Prop :=
  tr.getLast? = some (Act.exited 1) ∧ ∀ a ∈ tr.dropLast, ∀ n, a ≠ Act.exited n

/-- A concrete environment: every probe succeeds with empty streams, every
file read fails, every directory listing fails, and the three formatting
collaborators are the identity. -/
def envAllOk : Env where
  spawn := fun _ _ => ⟨some 0, some "", some ""⟩
  readFile := fun _ => none
  readdir := fun _ => none
  homedir := "/home/user"
  failure := id
  warn := id
  varFmt := id

/-- A concrete environment where the probe of `bar` exits 1 while every
other probe exits 0. -/
def envBarBroken : Env :=
  { envAllOk with
    spawn := fun c _ =>
      if c == "bar" then ⟨some 1, some "", some ""⟩ else ⟨some 0, some "", some ""⟩ }

/-- A concrete environment where every spawn fails to launch: `null`
status and `null` captured streams. -/
def envNoLaunch : Env :=
  { envAllOk with spawn := fun _ _ => ⟨none, none, none⟩ }

/-- A concrete environment where gcloud exits 0 with `(unset)` on stderr
and git exits 0 with an email but no name on stdout. -/
def envUnset : Env :=
  { envAllOk with
    spawn := fun c _ =>
      if c == "gcloud" then ⟨some 0, some "", some "(unset)"⟩
      else ⟨some 0, some "user.email=x@y.com", some ""⟩ }

/-- C1: `checkInstalled` probes each name with a single `--version`
argument, collects every name whose probe exits with a non-zero status (or
fails to launch, i.e. `null` status) into a missing list in order; if that
list is non-empty it prints exactly one consolidated failure message
naming all missing names and exits with code 1, and if it is empty it
returns normally with no output. -/
theorem checkInstalled_consolidated (env : Env) (cmds : List String) :
    checkInstalled env cmds =
      if cmds.filter (fun c => (env.spawn c ["--version"]).status != some 0) = [] then
        (cmds.map (fun c => Act.spawned c ["--version"]), Ret.normal)
      else
        (cmds.map (fun c => Act.spawned c ["--version"]) ++
          [Act.printed (installedMsg env
            (cmds.filter (fun c => (env.spawn c ["--version"]).status != some 0))),
           Act.exited 1],
         Ret.terminated) := by
  unfold checkInstalled
  by_cases h : cmds.length = 0
  · have hnil : cmds = [] := List.length_eq_zero.mp h
    subst hnil
    simp
  · simp only [if_neg h]
    by_cases hm : cmds.filter (fun c => (env.spawn c ["--version"]).status != some 0) = []
    · simp [hm]
    · have hlen : (cmds.filter (fun c => (env.spawn c ["--version"]).status != some 0)).length ≠ 0 := by
        intro hl
        exact hm (List.length_eq_zero.mp hl)
      simp [hm, hlen]

/-- C7: on an empty sequence of command names, `checkInstalled` returns
at once: no spawn, no print, no exit. -/
theorem checkInstalled_empty_noop (env : Env) :
    checkInstalled env [] = ([], Ret.normal) := rfl

/-- C5: `checkFileExists` returns `true` exactly when the read succeeds
and `false` exactly when the read fails, for any reason; it neither throws
nor terminates (its result type is a plain boolean). -/
theorem checkFileExists_spec (env : Env) (file : String) :
    (checkFileExists env file = true ↔ ∃ d, env.readFile file = some d) ∧
    (checkFileExists env file = false ↔ env.readFile file = none) := by
  unfold checkFileExists
  cases h : env.readFile file <;> simp

/-- C6: the promise of `checkLocalDir` resolves exactly when the listing
succeeds with zero entries, and rejects (payload-free, the constructor
carries no argument) exactly when the listing errors or has at least one
entry. -/
theorem checkLocalDir_spec (env : Env) (dirName : String) :
    (checkLocalDir env dirName = PromiseOutcome.resolved ↔
      env.readdir dirName = some []) ∧
    (checkLocalDir env dirName = PromiseOutcome.rejected ↔
      (env.readdir dirName = none ∨ ∃ f fs, env.readdir dirName = some (f :: fs))) := by
  unfold checkLocalDir
  cases h : env.readdir dirName with
  | none => simp
  | some files => cases files <;> simp

/-- C2: assuming the spawn contract (a captured stderr is present whenever
the child exited with status 0), `checkGcloudProject` passes silently
exactly when the status is 0 and the captured stderr does not contain
`(unset)`; in every other case it prints the failure message and the two
remediation hints and exits with code 1. -/
theorem checkGcloudProject_spec (env : Env)
    (hwf : (gcloudRes env).status = some 0 → (gcloudRes env).stderr.isSome = true) :
    (checkGcloudProject env = ([Act.spawned "gcloud" gcloudArgs], Ret.normal) ↔
      ((gcloudRes env).status = some 0 ∧
        ∀ e, (gcloudRes env).stderr = some e → strIncludes e "(unset)" = false)) ∧
    (¬ ((gcloudRes env).status = some 0 ∧
        ∀ e, (gcloudRes env).stderr = some e → strIncludes e "(unset)" = false) →
      checkGcloudProject env =
        (Act.spawned "gcloud" gcloudArgs :: gcloudFailLines env ++ [Act.exited 1],
         Ret.terminated)) := by
  unfold checkGcloudProject jsOr
  simp only [gcloudRes] at hwf ⊢
  rcases hs : (env.spawn "gcloud" gcloudArgs).status with _ | n
  · simp [hs]
  · by_cases hn : n = 0
    · subst hn
      obtain ⟨e, he⟩ := Option.isSome_iff_exists.mp (hwf hs)
      rcases hinc : strIncludes e "(unset)" with _ | _
      · simp [hs, he, hinc]
      · simp [hs, he, hinc]
    · simp [hs, hn]

/-- C3: assuming the spawn contract (a captured stdout is present whenever
the child exited with status 0), `checkGitConfig` passes silently exactly
when the status is 0 and the captured stdout contains both the substring
`email` and the substring `name`; in every other case it prints the
failure message and the remediation hints and exits with code 1. -/
theorem checkGitConfig_spec (env : Env)
    (hwf : (gitConfigRes env).status = some 0 → (gitConfigRes env).stdout.isSome = true) :
    (checkGitConfig env = ([Act.spawned "git" gitConfigArgs], Ret.normal) ↔
      ((gitConfigRes env).status = some 0 ∧
        ∀ s, (gitConfigRes env).stdout = some s →
          strIncludes s "email" = true ∧ strIncludes s "name" = true)) ∧
    (¬ ((gitConfigRes env).status = some 0 ∧
        ∀ s, (gitConfigRes env).stdout = some s →
          strIncludes s "email" = true ∧ strIncludes s "name" = true) →
      checkGitConfig env =
        (Act.spawned "git" gitConfigArgs :: gitConfigFailLines env ++ [Act.exited 1],
         Ret.terminated)) := by
  unfold checkGitConfig jsOr
  simp only [gitConfigRes] at hwf ⊢
  rcases hs : (env.spawn "git" gitConfigArgs).status with _ | n
  · simp [hs]
  · by_cases hn : n = 0
    · subst hn
      obtain ⟨s, hso⟩ := Option.isSome_iff_exists.mp (hwf hs)
      rcases he : strIncludes s "email" with _ | _
      · simp [hs, hso, he]
      · rcases hm : strIncludes s "name" with _ | _
        · simp [hs, hso, he, hm]
        · simp [hs, hso, he, hm]
    · simp [hs, hn]

/-- C2 witness: in the concrete environment where gcloud exits 0 with
`(unset)` on stderr, the check prints its three lines and exits 1. -/
theorem checkGcloudProject_spec_witness :
    ((gcloudRes envUnset).status = some 0 → (gcloudRes envUnset).stderr.isSome = true) ∧
    checkGcloudProject envUnset =
      (Act.spawned "gcloud" gcloudArgs :: gcloudFailLines envUnset ++ [Act.exited 1],
       Ret.terminated) :=
  ⟨by decide,
   (checkGcloudProject_spec envUnset (by decide)).2 (by
     intro hc
     exact absurd (hc.2 "(unset)" (by decide)) (by decide))⟩

/-- C3 witness: in the concrete environment where git exits 0 with a
stdout holding an email but no name, the check prints its four lines and
exits 1. -/
theorem checkGitConfig_spec_witness :
    ((gitConfigRes envUnset).status = some 0 → (gitConfigRes envUnset).stdout.isSome = true) ∧
    checkGitConfig envUnset =
      (Act.spawned "git" gitConfigArgs :: gitConfigFailLines envUnset ++ [Act.exited 1],
       Ret.terminated) :=
  ⟨by decide,
   (checkGitConfig_spec envUnset (by decide)).2 (by
     intro hc
     exact absurd ((hc.2 "user.email=x@y.com" (by decide)).2) (by decide))⟩

/-- C4: `checkGitLocalAuth` reads `<homedir>/.gitcookies`; it returns
silently exactly when the read succeeds with a content containing
`source.developers.google.com`, and in every other case (read failure of
any kind, or marker absent) it prints the one generic failure message and
exits with code 1. -/
theorem checkGitLocalAuth_spec (env : Env) :
    (checkGitLocalAuth env = ([], Ret.normal) ↔
      (∃ c, env.readFile (env.homedir ++ "/.gitcookies") = some c ∧
        strIncludes c "source.developers.google.com" = true)) ∧
    (¬ (∃ c, env.readFile (env.homedir ++ "/.gitcookies") = some c ∧
        strIncludes c "source.developers.google.com" = true) →
      checkGitLocalAuth env =
        ([Act.printed (env.failure gitAuthMsg), Act.exited 1], Ret.terminated)) := by
  unfold checkGitLocalAuth
  rcases hr : env.readFile (env.homedir ++ "/.gitcookies") with _ | c
  · simp [hr]
  · rcases hc : strIncludes c "source.developers.google.com" with _ | _
    · simp [hr, hc]
    · simp [hr, hc]

/-- Helper: a trace made of exit-free actions followed by `exit 1`
satisfies `exitLastOnly`. -/
theorem exitLastOnly_of_no_exit (pre : List Act)
    (hpre : ∀ a ∈ pre, ∀ n, a ≠ Act.exited n) :
    exitLastOnly (pre ++ [Act.exited 1]) := by
  constructor
  · rw [List.getLast?_concat]
  · intro a ha n
    rw [List.dropLast_concat] at ha
    exact hpre a ha n

/-- Helper: the failing trace of `checkGcloudProject` ends in exit 1. -/
theorem exitLastOnly_gcloudFail (env : Env) :
    exitLastOnly (Act.spawned "gcloud" gcloudArgs :: gcloudFailLines env ++ [Act.exited 1]) := by
  show exitLastOnly ((Act.spawned "gcloud" gcloudArgs :: gcloudFailLines env) ++ [Act.exited 1])
  apply exitLastOnly_of_no_exit
  intro a ha n
  simp only [gcloudFailLines, List.mem_cons, List.not_mem_nil, or_false] at ha
  rcases ha with h | h | h | h <;> subst h <;> simp

/-- Helper: the failing trace of `checkGitConfig` ends in exit 1. -/
theorem exitLastOnly_gitConfigFail (env : Env) :
    exitLastOnly (Act.spawned "git" gitConfigArgs :: gitConfigFailLines env ++ [Act.exited 1]) := by
  show exitLastOnly ((Act.spawned "git" gitConfigArgs :: gitConfigFailLines env) ++ [Act.exited 1])
  apply exitLastOnly_of_no_exit
  intro a ha n
  simp only [gitConfigFailLines, List.mem_cons, List.not_mem_nil, or_false] at ha
  rcases ha with h | h | h | h | h <;> subst h <;> simp

/-- Helper: the failing trace of `checkGitLocalAuth` ends in exit 1. -/
theorem exitLastOnly_gitAuthFail (env : Env) :
    exitLastOnly [Act.printed (env.failure gitAuthMsg), Act.exited 1] := by
  show exitLastOnly ([Act.printed (env.failure gitAuthMsg)] ++ [Act.exited 1])
  apply exitLastOnly_of_no_exit
  intro a ha n
  simp only [List.mem_singleton] at ha
  subst ha
  simp

/-- C8: in each of the four fatal checkers, under the spawn contract for
the two stream-inspecting ones, a run that terminates the process does so
with exit code 1 as the very last observable action (every print comes
before it and no other exit occurs), and no run throws an exception to
the caller. -/
theorem fatal_checks_terminate_last (env : Env) (cmds : List String)
    (hwfg : (gcloudRes env).status = some 0 → (gcloudRes env).stderr.isSome = true)
    (hwft : (gitConfigRes env).status = some 0 → (gitConfigRes env).stdout.isSome = true) :
    (((checkInstalled env cmds).2 = Ret.terminated → exitLastOnly (checkInstalled env cmds).1) ∧
      (checkInstalled env cmds).2 ≠ Ret.threw) ∧
    (((checkGcloudProject env).2 = Ret.terminated → exitLastOnly (checkGcloudProject env).1) ∧
      (checkGcloudProject env).2 ≠ Ret.threw) ∧
    (((checkGitLocalAuth env).2 = Ret.terminated → exitLastOnly (checkGitLocalAuth env).1) ∧
      (checkGitLocalAuth env).2 ≠ Ret.threw) ∧
    (((checkGitConfig env).2 = Ret.terminated → exitLastOnly (checkGitConfig env).1) ∧
      (checkGitConfig env).2 ≠ Ret.threw) := by
  refine ⟨⟨?_, ?_⟩, ⟨?_, ?_⟩, ⟨?_, ?_⟩, ⟨?_, ?_⟩⟩
  · unfold checkInstalled
    by_cases h : cmds.length = 0
    · simp [h]
    · rw [if_neg h]
      by_cases hm :
          (cmds.filter (fun c => (env.spawn c ["--version"]).status != some 0)).length ≠ 0
      · rw [if_pos hm]
        intro _
        have heq :
            cmds.map (fun c => Act.spawned c ["--version"]) ++
              [Act.printed (installedMsg env
                (cmds.filter (fun c => (env.spawn c ["--version"]).status != some 0))),
               Act.exited 1]
            = (cmds.map (fun c => Act.spawned c ["--version"]) ++
                [Act.printed (installedMsg env
                  (cmds.filter (fun c => (env.spawn c ["--version"]).status != some 0)))]) ++
              [Act.exited 1] := by
          simp
        rw [heq]
        apply exitLastOnly_of_no_exit
        intro a ha n
        rcases List.mem_append.mp ha with hin | hin
        · obtain ⟨c, _, hc⟩ := List.mem_map.mp hin
          subst hc
          simp
        · simp only [List.mem_singleton] at hin
          subst hin
          simp
      · rw [if_neg hm]
        simp
  · unfold checkInstalled
    by_cases h : cmds.length = 0
    · simp [h]
    · rw [if_neg h]
      by_cases hm :
          (cmds.filter (fun c => (env.spawn c ["--version"]).status != some 0)).length ≠ 0
      · rw [if_pos hm]
        simp
      · rw [if_neg hm]
        simp
  · unfold checkGcloudProject jsOr
    simp only [gcloudRes] at hwfg
    rcases hs : (env.spawn "gcloud" gcloudArgs).status with _ | n
    · simp [hs]
      exact exitLastOnly_gcloudFail env
    · by_cases hn : n = 0
      · subst hn
        obtain ⟨e, he⟩ := Option.isSome_iff_exists.mp (hwfg hs)
        rcases hinc : strIncludes e "(unset)" with _ | _
        · simp [hs, he, hinc]
        · simp [hs, he, hinc]
          exact exitLastOnly_gcloudFail env
      · simp [hs, hn]
        exact exitLastOnly_gcloudFail env
  · unfold checkGcloudProject jsOr
    simp only [gcloudRes] at hwfg
    rcases hs : (env.spawn "gcloud" gcloudArgs).status with _ | n
    · simp [hs]
    · by_cases hn : n = 0
      · subst hn
        obtain ⟨e, he⟩ := Option.isSome_iff_exists.mp (hwfg hs)
        rcases hinc : strIncludes e "(unset)" with _ | _ <;> simp [hs, he, hinc]
      · simp [hs, hn]
  · unfold checkGitLocalAuth
    rcases hr : env.readFile (env.homedir ++ "/.gitcookies") with _ | c
    · simp [hr]
      exact exitLastOnly_gitAuthFail env
    · rcases hc : strIncludes c "source.developers.google.com" with _ | _
      · simp [hr, hc]
        exact exitLastOnly_gitAuthFail env
      · simp [hr, hc]
  · unfold checkGitLocalAuth
    rcases hr : env.readFile (env.homedir ++ "/.gitcookies") with _ | c
    · simp [hr]
    · rcases hc : strIncludes c "source.developers.google.com" with _ | _ <;> simp [hr, hc]
  · unfold checkGitConfig jsOr
    simp only [gitConfigRes] at hwft
    rcases hs : (env.spawn "git" gitConfigArgs).status with _ | n
    · simp [hs]
      exact exitLastOnly_gitConfigFail env
    · by_cases hn : n = 0
      · subst hn
        obtain ⟨s, hso⟩ := Option.isSome_iff_exists.mp (hwft hs)
        rcases hb : (!(strIncludes s "email") || !(strIncludes s "name")) with _ | _
        · simp [hs, hso, hb]
        · simp [hs, hso, hb]
          exact exitLastOnly_gitConfigFail env
      · simp [hs, hn]
        exact exitLastOnly_gitConfigFail env
  · unfold checkGitConfig jsOr
    simp only [gitConfigRes] at hwft
    rcases hs : (env.spawn "git" gitConfigArgs).status with _ | n
    · simp [hs]
    · by_cases hn : n = 0
      · subst hn
        obtain ⟨s, hso⟩ := Option.isSome_iff_exists.mp (hwft hs)
        rcases hb : (!(strIncludes s "email") || !(strIncludes s "name")) with _ | _ <;>
          simp [hs, hso, hb]
      · simp [hs, hn]

/-- C8 witness: the spawn contract holds in the concrete environment
where gcloud reports `(unset)` and git lacks a name, and the four
exit-ordering properties hold there for the command list `["node"]`. -/
theorem fatal_checks_terminate_last_witness :
    ((gcloudRes envUnset).status = some 0 → (gcloudRes envUnset).stderr.isSome = true) ∧
    ((gitConfigRes envUnset).status = some 0 → (gitConfigRes envUnset).stdout.isSome = true) ∧
    ((((checkInstalled envUnset ["node"]).2 = Ret.terminated →
        exitLastOnly (checkInstalled envUnset ["node"]).1) ∧
      (checkInstalled envUnset ["node"]).2 ≠ Ret.threw) ∧
     (((checkGcloudProject envUnset).2 = Ret.terminated →
        exitLastOnly (checkGcloudProject envUnset).1) ∧
      (checkGcloudProject envUnset).2 ≠ Ret.threw) ∧
     (((checkGitLocalAuth envUnset).2 = Ret.terminated →
        exitLastOnly (checkGitLocalAuth envUnset).1) ∧
      (checkGitLocalAuth envUnset).2 ≠ Ret.threw) ∧
     (((checkGitConfig envUnset).2 = Ret.terminated →
        exitLastOnly (checkGitConfig envUnset).1) ∧
      (checkGitConfig envUnset).2 ≠ Ret.threw)) :=
  ⟨by decide, by decide,
   fatal_checks_terminate_last envUnset ["node"] (by decide) (by decide)⟩

/-- C9: every checker is stateless and deterministic: two invocations
against environments giving identical process-launcher, filesystem,
home-directory and formatting responses yield identical outcomes, for
each of the six exported checkers. -/
theorem checkers_stateless (env1 env2 : Env)
    (hspawn : env1.spawn = env2.spawn)
    (hread : env1.readFile = env2.readFile)
    (hdir : env1.readdir = env2.readdir)
    (hhome : env1.homedir = env2.homedir)
    (hfail : env1.failure = env2.failure)
    (hwarn : env1.warn = env2.warn)
    (hvar : env1.varFmt = env2.varFmt)
    (cmds : List String) (file dirName : String) :
    checkInstalled env1 cmds = checkInstalled env2 cmds ∧
    checkGcloudProject env1 = checkGcloudProject env2 ∧
    checkGitLocalAuth env1 = checkGitLocalAuth env2 ∧
    checkGitConfig env1 = checkGitConfig env2 ∧
    checkFileExists env1 file = checkFileExists env2 file ∧
    checkLocalDir env1 dirName = checkLocalDir env2 dirName := by
  obtain ⟨s1, r1, d1, h1, f1, w1, v1⟩ := env1
  obtain ⟨s2, r2, d2, h2, f2, w2, v2⟩ := env2
  simp only [Env.spawn, Env.readFile, Env.readdir, Env.homedir, Env.failure, Env.warn,
    Env.varFmt] at hspawn hread hdir hhome hfail hwarn hvar
  subst hspawn hread hdir hhome hfail hwarn hvar
  exact ⟨rfl, rfl, rfl, rfl, rfl, rfl⟩

/-- C9 witness: the statelessness conclusion instantiated at a concrete
environment, concrete command list, file and directory. -/
theorem checkers_stateless_witness :
    (envAllOk.spawn = envAllOk.spawn) ∧
    (checkInstalled envAllOk ["node"] = checkInstalled envAllOk ["node"] ∧
     checkGcloudProject envAllOk = checkGcloudProject envAllOk ∧
     checkGitLocalAuth envAllOk = checkGitLocalAuth envAllOk ∧
     checkGitConfig envAllOk = checkGitConfig envAllOk ∧
     checkFileExists envAllOk "a.txt" = checkFileExists envAllOk "a.txt" ∧
     checkLocalDir envAllOk "d" = checkLocalDir envAllOk "d") :=
  ⟨rfl,
   checkers_stateless envAllOk envAllOk rfl rfl rfl rfl rfl rfl rfl ["node"] "a.txt" "d"⟩

/-- C10: when a child fails to launch (`null` status and `null` captured
streams), both stream-inspecting checkers take the fatal branch through
the short-circuited status disjunct: they print their messages and exit
with code 1 rather than dereference the `null` stream and throw. -/
theorem null_streams_never_dereferenced (env : Env)
    (hg : env.spawn "gcloud" gcloudArgs = ⟨none, none, none⟩)
    (ht : env.spawn "git" gitConfigArgs = ⟨none, none, none⟩) :
    (checkGcloudProject env =
      (Act.spawned "gcloud" gcloudArgs :: gcloudFailLines env ++ [Act.exited 1],
       Ret.terminated) ∧
     (checkGcloudProject env).2 ≠ Ret.threw) ∧
    (checkGitConfig env =
      (Act.spawned "git" gitConfigArgs :: gitConfigFailLines env ++ [Act.exited 1],
       Ret.terminated) ∧
     (checkGitConfig env).2 ≠ Ret.threw) := by
  unfold checkGcloudProject checkGitConfig jsOr
  simp [hg, ht]

/-- C10 witness: in the concrete environment where every spawn fails to
launch, both checkers exit 1 with their failure messages. -/
theorem null_streams_never_dereferenced_witness :
    (envNoLaunch.spawn "gcloud" gcloudArgs = ⟨none, none, none⟩) ∧
    ((checkGcloudProject envNoLaunch =
       (Act.spawned "gcloud" gcloudArgs :: gcloudFailLines envNoLaunch ++ [Act.exited 1],
        Ret.terminated) ∧
      (checkGcloudProject envNoLaunch).2 ≠ Ret.threw) ∧
     (checkGitConfig envNoLaunch =
       (Act.spawned "git" gitConfigArgs :: gitConfigFailLines envNoLaunch ++ [Act.exited 1],
        Ret.terminated) ∧
      (checkGitConfig envNoLaunch).2 ≠ Ret.threw)) :=
  ⟨by decide, null_streams_never_dereferenced envNoLaunch (by decide) (by decide)⟩

end CheckPrereqs
